import Mathlib

/-
Verification of the Sculptor real-time session and pub/sub core.
The Rust sources under src/ are shallowly embedded: byte slices become
List Nat, machine integers become Nat with explicit reduction modulo
2 ^ 32 where the code truncates, fallible operations return Option or
Except, and a panic (unwrap on None, todo) is an explicit outcome of the
embedded function.
-/

namespace Sculptor

/-- UserIdentifier: a 128-bit identifier, modelled as its 16 bytes. -/
abbrev Uuid := List Nat

/-- Session tokens travel on the wire as raw bytes; the source stores them
as hex strings, which are in bijection with their byte encodings, so the
model keys registries by the bytes themselves. -/
abbrev SToken := List Nat

/-- Association-list lookup: first value bound to the key, mirroring the
DashMap get operations of the source. -/
def findMap {κ α : Type} [DecidableEq κ] (k : κ) : List (κ × α) → Option α
  | [] => none
  | (k2, v) :: rest => if k2 = k then some v else findMap k rest

/-- Association-list removal of every binding of a key. -/
def removeMap {κ α : Type} [DecidableEq κ] (k : κ) : List (κ × α) → List (κ × α)
  | [] => []
  | (k2, v) :: rest => if k2 = k then removeMap k rest else (k2, v) :: removeMap k rest

/-- Association-list insert-or-replace, mirroring DashMap insert. -/
def setMap {κ α : Type} [DecidableEq κ] (k : κ) (v : α) (m : List (κ × α)) : List (κ × α) :=
  (k, v) :: removeMap k m

/-- Big-endian bytes of a u32, as in u32::to_be_bytes. -/
def u32_to_be_bytes (i : Nat) : List Nat :=
  [i / 2 ^ 24 % 256, i / 2 ^ 16 % 256, i / 2 ^ 8 % 256, i % 256]

/-- Reconstruction of a u32 from four big-endian bytes, as in
u32::from_be_bytes. -/
def u32_from_be_bytes (b : List Nat) : Nat :=
  match b with
  | [a, b1, c, d] => a * 2 ^ 24 + b1 * 2 ^ 16 + c * 2 ^ 8 + d
  | _ => 0

/-- Decode errors of the wire codec (src/ws, MessageLoadError). BadEnum
carries the inclusive range bounds that the source stores as a
RangeInclusive. -/
inductive MessageLoadError where
  | BadLength (ctx : String) (expected : Nat) (exact : Bool) (got : Nat)
  | BadEnum (field : String) (lo : Nat) (hi : Nat) (got : Nat)
  deriving DecidableEq

/-- Server-to-client messages (src/ws/s2c.rs). Strings are carried as
their UTF-8 bytes. -/
inductive S2CMessage where
  | Auth
  | Ping (u : Uuid) (i : Nat) (s : Bool) (d : List Nat)
  | Event (u : Uuid)
  | Toast (t : Nat) (header : List Nat) (body : Option (List Nat))
  | Chat (c : List Nat)
  | Notice (t : Nat)
  deriving DecidableEq

/-- Encoder of S2CMessage (impl Into for S2CMessage, src/ws/s2c.rs
lines 62 to 88). Total by construction. -/
def S2CMessage.to_array : S2CMessage → List Nat
  | .Auth => [0]
  | .Ping u i s d => 1 :: (u ++ u32_to_be_bytes i ++ (if s then 1 else 0) :: d)
  | .Event u => 2 :: u
  | .Toast t h b => 3 :: t :: (h ++ (match b with | none => [] | some s => 0 :: s))
  | .Chat c => 4 :: c
  | .Notice t => [5, t]

/-- Result of running the S2C decoder: success, a decode error, or a
panic. The source marks opcodes 3, 4 and 5 with todo, which panics. -/
inductive DecodeResult where
  | ok (m : S2CMessage)
  | err (e : MessageLoadError)
  | panicked
  deriving DecidableEq

/-- Decoder of S2CMessage (impl TryFrom for S2CMessage, src/ws/s2c.rs
lines 17 to 61). Opcodes 3, 4 and 5 are todo in the source and therefore
panic. -/
def S2CMessage.try_from (buf : List Nat) : DecodeResult :=
  match buf with
  | [] => .err (.BadLength "S2CMessage" 1 false 0)
  | b :: rest =>
    match b with
    | 0 =>
      if rest.length = 0 then .ok .Auth
      else .err (.BadLength "S2CMessage::Auth" 1 true (rest.length + 1))
    | 1 =>
      if 22 ≤ rest.length + 1 then
        .ok (.Ping (rest.take 16) (u32_from_be_bytes ((rest.drop 16).take 4))
          ((rest.drop 20).headD 0 != 0) (rest.drop 21))
      else .err (.BadLength "S2CMessage::Ping" 22 false (rest.length + 1))
    | 2 =>
      if rest.length + 1 = 17 then .ok (.Event rest)
      else .err (.BadLength "S2CMessage::Event" 17 true (rest.length + 1))
    | 3 => .panicked
    | 4 => .panicked
    | 5 => .panicked
    | (a + 6) => .err (.BadEnum "S2CMessage.type" 0 5 (a + 6))

/-- Fan-out rewrite of a raw C2S ping frame (fn into_s2c_ping,
src/api/figura/websocket.rs lines 228 to 234): a literal opcode 1, then
the 16 publisher identifier bytes, then everything after the original
opcode byte. -/
def into_s2c_ping (buf : List Nat) (uuid : Uuid) : List Nat :=
  1 :: (uuid ++ buf.drop 1)

/-- Client-to-server messages. -/
inductive C2SMessage where
  | Token (t : SToken)
  | Ping (i : Nat) (s : Bool) (d : List Nat)
  | Sub (u : Uuid)
  | Unsub (u : Uuid)
  deriving DecidableEq

/-- Modelled from the spec: the C2S decoder (module c2s of
src/api/figura/websocket/types) is declared but its file is not under
src. Spec section 4.1: opcode 0x00 Token takes the remainder of the
frame as the token bytes; 0x01 Ping carries a 4-byte big-endian id, a
boolean sync byte and uninterpreted data; 0x02 Sub and 0x03 Unsub carry exactly
16 bytes; unknown opcodes are rejected with BadEnum and wrong sizes with
BadLength, in the style of the S2C decoder in src/ws/s2c.rs. -/
def C2SMessage.try_from (buf : List Nat) : Except MessageLoadError C2SMessage :=
  match buf with
  | [] => .error (.BadLength "C2SMessage" 1 false 0)
  | b :: rest =>
    match b with
    | 0 => .ok (.Token rest)
    | 1 =>
      if 5 ≤ rest.length then
        .ok (.Ping (u32_from_be_bytes (rest.take 4)) (rest.getD 4 0 != 0) (rest.drop 5))
      else .error (.BadLength "C2SMessage::Ping" 6 false (rest.length + 1))
    | 2 =>
      if rest.length = 16 then .ok (.Sub rest)
      else .error (.BadLength "C2SMessage::Sub" 17 true (rest.length + 1))
    | 3 =>
      if rest.length = 16 then .ok (.Unsub rest)
      else .error (.BadLength "C2SMessage::Unsub" 17 true (rest.length + 1))
    | (a + 4) => .error (.BadEnum "C2SMessage.type" 0 3 (a + 4))

/-- Validity of a byte sequence as UTF-8, as checked by
String::from_utf8 in Rust: continuation bytes in 0x80 to 0xBF, no
overlong forms, no surrogates, nothing above U+10FFFF. The Token arm of
the session loop (src/api/figura/websocket.rs line 97) unwraps this
check. -/
def utf8Cont (b : Nat) : Bool := decide (0x80 ≤ b ∧ b ≤ 0xBF)

/-- Validity check for a whole byte list as UTF-8. -/
def isValidUtf8 : List Nat → Bool
  | [] => true
  | b :: rest =>
    if b ≤ 0x7F then isValidUtf8 rest
    else if b < 0xC2 then false
    else if b ≤ 0xDF then
      match rest with
      | c :: r => utf8Cont c && isValidUtf8 r
      | [] => false
    else if b ≤ 0xEF then
      match rest with
      | c :: d :: r =>
        (if b = 0xE0 then decide (0xA0 ≤ c ∧ c ≤ 0xBF)
         else if b = 0xED then decide (0x80 ≤ c ∧ c ≤ 0x9F)
         else utf8Cont c) && utf8Cont d && isValidUtf8 r
      | _ => false
    else if b ≤ 0xF4 then
      match rest with
      | c :: d :: e :: r =>
        (if b = 0xF0 then decide (0x90 ≤ c ∧ c ≤ 0xBF)
         else if b = 0xF4 then decide (0x80 ≤ c ∧ c ≤ 0x8F)
         else utf8Cont c) && utf8Cont d && utf8Cont e && isValidUtf8 r
      | _ => false
    else false

/-- Modelled from the spec: the authoritative UserInfo record (struct
Userinfo of the auth module, whose file is not under src). Only the
fields the verified claims inspect are kept: nickname, uuid and the
session token. -/
structure Userinfo where
  nickname : String
  uuid : Uuid
  token : Option SToken
  deriving DecidableEq

/-- Modelled from the spec: the user registry (UManager of the auth
module, not under src). Spec section 4.2: a pending table from token to
nickname, mutually consistent token and uuid indexed views of UserInfo,
a ban set, and per-user upload flags. -/
structure UManager where
  pending : List (SToken × String)
  byToken : List (SToken × Userinfo)
  byUuid : List (Uuid × Userinfo)
  banned : List Uuid
  uploadFlags : List (Uuid × Bool)
  deriving DecidableEq

/-- Modelled from the spec: pending_insert adds to the pending table. -/
def UManager.pending_insert (m : UManager) (t : SToken) (nick : String) : UManager :=
  { m with pending := setMap t nick m.pending }

/-- Modelled from the spec: pending_remove takes the entry out of the
pending table and fails (None) if it is absent. -/
def UManager.pending_remove (m : UManager) (t : SToken) :
    Option (UManager × SToken × String) :=
  match findMap t m.pending with
  | some nick => some ({ m with pending := removeMap t m.pending }, t, nick)
  | none => none

/-- Modelled from the spec: insert adds the record to both indexed views
and fails if either the token or the uuid is already present. -/
def UManager.insert (m : UManager) (id : Uuid) (t : SToken) (info : Userinfo) :
    Option UManager :=
  match findMap t m.byToken, findMap id m.byUuid with
  | none, none =>
    some { m with byToken := (t, info) :: m.byToken, byUuid := (id, info) :: m.byUuid }
  | _, _ => none

/-- Modelled from the spec: remove drops every index keyed by the uuid,
including the token view entries of that user. -/
def UManager.remove (m : UManager) (id : Uuid) : UManager :=
  { m with
    byUuid := removeMap id m.byUuid,
    byToken := m.byToken.filter (fun p => !(decide (p.2.uuid = id))) }

/-- Token lookup of the registry. -/
def UManager.get (m : UManager) (t : SToken) : Option Userinfo :=
  findMap t m.byToken

/-- Uuid lookup of the registry. -/
def UManager.get_by_uuid (m : UManager) (id : Uuid) : Option Userinfo :=
  findMap id m.byUuid

/-- Ban-set membership. -/
def UManager.is_banned (m : UManager) (id : Uuid) : Bool :=
  decide (id ∈ m.banned)

/-- Per-user upload flag with a global default. -/
def UManager.upload_state (m : UManager) (id : Uuid) (dflt : Bool) : Bool :=
  match findMap id m.uploadFlags with
  | some b => b
  | none => dflt

/-- The shared application state the session and profile code touch:
per-user broadcast topics (each modelled by the list of frames published
on it; the field is named broadcasts in websocket.rs and subscribes in
profile.rs), the SessionMap of outbound queues, and the user registry. -/
structure AppState where
  broadcasts : List (Uuid × List (List Nat))
  session : List (Uuid × List (List Nat))
  user_manager : UManager
  deriving DecidableEq

/-- Publishing a frame on the topic sender kept for a key: the frame is
appended to that topic log; the sender handle outlives any map state, so
the append always happens. -/
def publish (k : Uuid) (msg : List Nat) (m : List (Uuid × List (List Nat))) :
    List (Uuid × List (List Nat)) :=
  match findMap k m with
  | some log => setMap k (log ++ [msg]) m
  | none => setMap k [msg] m

/-- Body of an HTTP response in the auth handlers: either fixed text or
the server_id token echoed back. -/
inductive VerifyBody where
  | text (s : String)
  | token (t : SToken)
  deriving DecidableEq

/-- Outcome of the Stage-2 verify handler: an HTTP response together
with the registry it leaves behind, or a panic. -/
inductive VerifyResult where
  | response (status : Nat) (body : VerifyBody) (m : UManager)
  | panicked
  deriving DecidableEq

/-- Stage-2 verify handler (fn verify, src/api/figura/auth.rs lines 29
to 76). The external identity oracle has_joined is a parameter: error is
a transport failure, ok none a failed verification, ok some the verified
uuid and the auth provider name. The handler first unwraps
pending_remove (a panic when the id is absent, per the source), then
consults the oracle, checks the ban set, and inserts with the
remove-then-retry-once conflict policy. The source banned body text
carries an apostrophe that is omitted here. -/
def verify (m : UManager) (oracle : Except Unit (Option (Uuid × String)))
    (server_id : SToken) : VerifyResult :=
  match m.pending_remove server_id with
  | none => .panicked
  | some (m1, _tok, nickname) =>
    match oracle with
    | .error _ => .response 500 (.text "internal verify error") m1
    | .ok none => .response 400 (.text "failed to verify") m1
    | .ok (some (uuid, _provider)) =>
      if m1.is_banned uuid then .response 400 (.text "You are banned!") m1
      else
        let info : Userinfo := { nickname := nickname, uuid := uuid, token := some server_id }
        match m1.insert uuid server_id info with
        | some m2 => .response 200 (.token server_id) m2
        | none =>
          let m2 := m1.remove uuid
          match m2.insert uuid server_id info with
          | some m3 => .response 200 (.token server_id) m3
          | none => .response 400 (.text "second session detected") m2

/-- Owner information a session keeps once authenticated (struct WSUser,
src/api/figura/websocket.rs lines 25 to 29). -/
structure WSUser where
  username : String
  uuid : Uuid
  deriving DecidableEq

/-- Connection-local state of one session loop (fn handle_socket,
src/api/figura/websocket.rs lines 45 to 50): the optional owner, the
keys of the cutoff map of subscription cancellation handles, and the key
of the retained broadcast sender. -/
structure SessionLocal where
  owner : Option WSUser
  cutoff : List Uuid
  bctx : Option Uuid
  deriving DecidableEq

/-- Side effects the loop body performs on the socket. -/
inductive WsAction where
  | sendBinary (b : List Nat)
  | sendClose (code : Nat) (reason : String)
  | sleepSecs (n : Nat)
  | logged (s : String)
  deriving DecidableEq

/-- Result of one pass of the session loop over a received binary
payload: continue with updated local and shared state after the listed
socket actions, or panic. The break paths of the source (receive error,
Close frame, send error) happen outside this body. -/
inductive StepResult where
  | cont (loc : SessionLocal) (srv : AppState) (acts : List WsAction)
  | panicked
  deriving DecidableEq

/-- Ban test the loop performs before touching the payload
(src/api/figura/websocket.rs lines 66 to 75): only an authenticated
owner can be banned. -/
def bannedCheck (srv : AppState) (loc : SessionLocal) : Bool :=
  match loc.owner with
  | some u => srv.user_manager.is_banned u.uuid
  | none => false

/-- Socket actions of the ban branch: Toast severity 2, the six second
sleep, then Close 4001. The source texts carry an apostrophe that is
omitted here. -/
def banActions : List WsAction :=
  [.sendBinary (S2CMessage.Toast 2 [] none).to_array, .sleepSecs 6,
   .sendClose 4001 "You are banned!"]

/-- One pass of the session loop body over a received binary payload
(fn handle_socket, src/api/figura/websocket.rs lines 66 to 174).
Faithful to the source: the ban check runs first; a zero length payload
is logged and skipped before decoding; decode errors are logged and
skipped; the Token arm unwraps the UTF-8 conversion (panic on invalid
bytes), answers a registry miss with Close 4000 and continues, and on a
hit sets the owner, inserts into the SessionMap, gets or creates the
topic and answers Auth; the Ping, Sub and Unsub arms unwrap the owner
(panic when unauthenticated); Unsub of an unsubscribed target unwraps
the missing cutoff entry (panic). -/
def handleFrame (srv : AppState) (loc : SessionLocal) (buf : List Nat) : StepResult :=
  if bannedCheck srv loc then .cont loc srv banActions
  else if buf = [] then .cont loc srv [.logged "Deprecated len 0 msg"]
  else
    match C2SMessage.try_from buf with
    | .error _ => .cont loc srv [.logged "This message is not from Figura!"]
    | .ok msg =>
      match msg with
      | .Token tokBytes =>
        if isValidUtf8 tokBytes then
          match srv.user_manager.get tokBytes with
          | some t =>
            let loc2 : SessionLocal :=
              { owner := some { username := t.nickname, uuid := t.uuid },
                cutoff := loc.cutoff, bctx := some t.uuid }
            let srv2 : AppState :=
              { srv with
                session :=
                  setMap t.uuid
                    (match findMap t.uuid srv.session with
                     | some q => q
                     | none => []) srv.session,
                broadcasts :=
                  match findMap t.uuid srv.broadcasts with
                  | some _ => srv.broadcasts
                  | none => setMap t.uuid [] srv.broadcasts }
            .cont loc2 srv2 [.sendBinary S2CMessage.Auth.to_array]
          | none => .cont loc srv [.sendClose 4000 "Re-auth"]
        else .panicked
      | .Ping _ _ _ =>
        match loc.owner with
        | none => .panicked
        | some u =>
          match loc.bctx with
          | none => .panicked
          | some k =>
            .cont loc
              { srv with broadcasts := publish k (into_s2c_ping buf u.uuid) srv.broadcasts }
              []
      | .Sub uuid =>
        match loc.owner with
        | none => .panicked
        | some u =>
          if uuid = u.uuid then .cont loc srv []
          else
            let srv2 : AppState :=
              { srv with
                broadcasts :=
                  match findMap uuid srv.broadcasts with
                  | some _ => srv.broadcasts
                  | none => setMap uuid [] srv.broadcasts }
            .cont { loc with cutoff := if uuid ∈ loc.cutoff then loc.cutoff else uuid :: loc.cutoff }
              srv2 []
      | .Unsub uuid =>
        match loc.owner with
        | none => .panicked
        | some u =>
          if uuid = u.uuid then .cont loc srv []
          else
            if uuid ∈ loc.cutoff then
              .cont { loc with cutoff := loc.cutoff.filter (fun k => !(decide (k = uuid))) } srv []
            else .panicked

/-- Event notifier (fn send_event, src/api/figura/profile.rs lines 183
to 200): the Event frame is published on the topic of the user when one
exists and queued on the SessionMap entry of the user when one exists;
both misses are logged and swallowed. -/
def send_event (st : AppState) (uuid : Uuid) : AppState :=
  let ev := (S2CMessage.Event uuid).to_array
  let b :=
    match findMap uuid st.broadcasts with
    | some log => setMap uuid (log ++ [ev]) st.broadcasts
    | none => st.broadcasts
  let s :=
    match findMap uuid st.session with
    | some q => setMap uuid (q ++ [ev]) st.session
    | none => st.session
  { st with broadcasts := b, session := s }

/-- Filesystem effects of the avatar endpoints. -/
inductive FsOp where
  | writeFile (id : Uuid) (data : List Nat)
  | removeFile (id : Uuid)
  deriving DecidableEq

/-- An HTTP status and body pair. -/
structure HttpReply where
  status : Nat
  body : String
  deriving DecidableEq

/-- PUT avatar handler (fn upload_avatar, src/api/figura/profile.rs
lines 137 to 160): an unknown token falls through to Ok with body ok; a
known token checks the upload flag (403 on refusal) and writes the
blob. -/
def upload_avatar (st : AppState) (canUploadDefault : Bool) (token : SToken)
    (body : List Nat) : HttpReply × List FsOp :=
  match st.user_manager.get token with
  | some info =>
    if st.user_manager.upload_state info.uuid canUploadDefault then
      ({ status := 200, body := "ok" }, [.writeFile info.uuid body])
    else ({ status := 403, body := "Forbidden" }, [])
  | none => ({ status := 200, body := "ok" }, [])

/-- DELETE avatar handler (fn delete_avatar, src/api/figura/profile.rs
lines 169 to 181): an unknown token falls through to Ok with body ok and
touches nothing; a known token removes the blob and emits the event.
The model keeps the successful filesystem path; an IO failure of the
removal is out of scope. -/
def delete_avatar (st : AppState) (token : SToken) :
    HttpReply × List FsOp × AppState :=
  match st.user_manager.get token with
  | some info =>
    ({ status := 200, body := "ok" }, [.removeFile info.uuid], send_event st info.uuid)
  | none => ({ status := 200, body := "ok" }, [], st)

/-- An empty registry. -/
def emptyManager : UManager :=
  { pending := [], byToken := [], byUuid := [], banned := [], uploadFlags := [] }

/-- An empty application state. -/
def srv0 : AppState :=
  { broadcasts := [], session := [], user_manager := emptyManager }

/-- Concrete identifier bytes for witnesses. -/
def uuidA : Uuid := List.replicate 16 7

/-- A second, distinct concrete identifier. -/
def uuidB : Uuid := List.replicate 16 9

/-- A fresh unauthenticated session. -/
def locUnauth : SessionLocal := { owner := none, cutoff := [], bctx := none }

/-- An authenticated session of uuidA with no subscriptions. -/
def locAuth : SessionLocal :=
  { owner := some { username := "alice", uuid := uuidA }, cutoff := [], bctx := some uuidA }

/-- The byte list of the ASCII word bogus. -/
def bogusToken : SToken := [98, 111, 103, 117, 115]

/-- A state with one empty topic and one empty session queue, both for
uuidA. -/
def srvA : AppState :=
  { broadcasts := [(uuidA, [])], session := [(uuidA, [])], user_manager := emptyManager }

/-- Registry left behind by a successful remove-then-retry takeover in
the Stage-2 verify handler: the pending entry is gone, every index of
the uuid is removed, and the fresh record is inserted under both the
new token and the uuid. -/
def takeoverRegistry (m : UManager) (uuid : Uuid) (sid : SToken) (info : Userinfo) : UManager :=
  let m2 := UManager.remove { m with pending := removeMap sid m.pending } uuid
  { m2 with byToken := (sid, info) :: m2.byToken, byUuid := (uuid, info) :: m2.byUuid }

/-- An old session token held before a takeover. -/
def sidOld : SToken := [49, 49]

/-- The fresh server_id of the second Stage-2 run. -/
def sidNew : SToken := [50, 50]

/-- The record of the first session of uuidA. -/
def oldInfoA : Userinfo := { nickname := "alice", uuid := uuidA, token := some sidOld }

/-- A registry holding one authenticated session of uuidA under sidOld
and a pending Stage-2 entry for sidNew. -/
def mgrTakeover : UManager :=
  { pending := [(sidNew, "alice")], byToken := [(sidOld, oldInfoA)],
    byUuid := [(uuidA, oldInfoA)], banned := [], uploadFlags := [] }

theorem findMap_setMap_self {κ α : Type} [DecidableEq κ] (k : κ) (v : α) (m : List (κ × α)) :
    findMap k (setMap k v m) = some v := by
  simp [setMap, findMap]

theorem findMap_removeMap_ne {κ α : Type} [DecidableEq κ] (k k2 : κ) (m : List (κ × α))
    (h : k2 ≠ k) : findMap k2 (removeMap k m) = findMap k2 m := by
  induction m with
  | nil => rfl
  | cons p rest ih =>
    obtain ⟨k3, v⟩ := p
    by_cases h3 : k3 = k
    · subst h3
      have hne : k3 ≠ k2 := fun hc => h (hc ▸ rfl)
      simp [removeMap, findMap, hne, ih]
    · simp [removeMap, findMap, h3, ih]

theorem findMap_removeMap_self {κ α : Type} [DecidableEq κ] (k : κ) (m : List (κ × α)) :
    findMap k (removeMap k m) = none := by
  induction m with
  | nil => rfl
  | cons p rest ih =>
    obtain ⟨k3, v⟩ := p
    by_cases h3 : k3 = k
    · simp [removeMap, h3, ih]
    · simp [removeMap, findMap, h3, ih]

theorem findMap_setMap_ne {κ α : Type} [DecidableEq κ] (k k2 : κ) (v : α) (m : List (κ × α))
    (h : k2 ≠ k) : findMap k2 (setMap k v m) = findMap k2 m := by
  have hne : k ≠ k2 := fun hc => h (hc ▸ rfl)
  simp [setMap, findMap, hne, findMap_removeMap_ne k k2 m h]

theorem findMap_publish_self (k : Uuid) (msg : List Nat) (m : List (Uuid × List (List Nat))) :
    findMap k (publish k msg m) = some ((findMap k m).getD [] ++ [msg]) := by
  unfold publish
  cases h : findMap k m with
  | some log => simp [findMap_setMap_self]
  | none => simp [findMap_setMap_self]

theorem findMap_publish_ne (k k2 : Uuid) (msg : List Nat) (m : List (Uuid × List (List Nat)))
    (h : k2 ≠ k) : findMap k2 (publish k msg m) = findMap k2 m := by
  unfold publish
  cases h2 : findMap k m <;> simp [findMap_setMap_ne k k2 _ m h]

theorem findMap_filter_none {κ α : Type} [DecidableEq κ] (f : κ × α → Bool) (k : κ)
    (l : List (κ × α)) (h : findMap k l = none) : findMap k (l.filter f) = none := by
  induction l with
  | nil => rfl
  | cons p rest ih =>
    obtain ⟨k3, v⟩ := p
    by_cases h3 : k3 = k
    · subst h3; simp [findMap] at h
    · simp only [findMap, if_neg h3] at h
      by_cases hf : f (k3, v) = true <;> simp [List.filter, hf, findMap, h3, ih h]

theorem findMap_filter_first {κ α : Type} [DecidableEq κ] (f : κ × α → Bool) (k : κ) (v : α)
    (l : List (κ × α)) (h : findMap k l = some v) (hf : f (k, v) = true) :
    findMap k (l.filter f) = some v := by
  induction l with
  | nil => simp [findMap] at h
  | cons p rest ih =>
    obtain ⟨k3, w⟩ := p
    by_cases h3 : k3 = k
    · subst h3
      simp only [findMap, if_pos rfl] at h
      obtain rfl : w = v := by injection h
      simp [List.filter, hf, findMap]
    · simp only [findMap, if_neg h3] at h
      by_cases hw : f (k3, w) = true <;> simp [List.filter, hw, findMap, h3, ih h]

theorem findMap_filter_prop {κ α : Type} [DecidableEq κ] (f : κ × α → Bool) (k : κ) (v : α)
    (l : List (κ × α)) (h : findMap k (l.filter f) = some v) : f (k, v) = true := by
  induction l with
  | nil => simp [findMap] at h
  | cons p rest ih =>
    obtain ⟨k3, w⟩ := p
    by_cases hw : f (k3, w) = true
    · simp only [List.filter, hw, cond_true] at h
      by_cases h3 : k3 = k
      · subst h3
        simp only [findMap, if_pos rfl] at h
        obtain rfl : w = v := by injection h
        exact hw
      · simp only [findMap, if_neg h3] at h
        exact ih h
    · simp only [List.filter, Bool.not_eq_true] at hw
      simp only [List.filter, hw, cond_false] at h
      exact ih h

/-- C4: the claim says that in the unauthenticated state every frame
other than Token is decoded, logged and ignored without a panic. The
source instead unwraps the absent owner: a pre-auth Ping, Sub or Unsub
panics the session task. Evaluated at the concrete failing inputs. -/
theorem preauth_nontoken_frames_panic :
    handleFrame srv0 locUnauth [1, 0, 0, 0, 5, 1, 222, 173] = .panicked
    ∧ handleFrame srv0 locUnauth (2 :: uuidB) = .panicked
    ∧ handleFrame srv0 locUnauth (3 :: uuidB) = .panicked := by
  decide

/-- C6: the claim says Unsub of a target with no existing subscription
is a no-op. The source unwraps the missing cutoff entry and panics,
as its own FIXME comment records. Evaluated at a concrete authenticated
session with an empty subscription map. -/
theorem unsub_unknown_target_panics :
    handleFrame srv0 locAuth (3 :: uuidB) = .panicked := by
  decide

/-- C10: an empty binary frame is discarded by the session loop before
the wire decoder runs: the local and shared state are returned
unchanged and the loop continues (with the log-and-skip action, or with
the ban response that also precedes decoding), while the decoder on the
empty input would produce its BadLength error, which is therefore
unreachable from the loop. -/
theorem empty_frame_skipped (srv : AppState) (loc : SessionLocal) :
    handleFrame srv loc [] =
      .cont loc srv
        (if bannedCheck srv loc then banActions else [.logged "Deprecated len 0 msg"])
    ∧ C2SMessage.try_from [] = .error (.BadLength "C2SMessage" 1 false 0) := by
  constructor
  · by_cases h : bannedCheck srv loc <;> simp [handleFrame, h]
  · rfl

/-- Closed instance of the empty-frame theorem at a concrete state. -/
theorem empty_frame_skipped_witness :
    handleFrame srv0 locUnauth [] =
      .cont locUnauth srv0
        (if bannedCheck srv0 locUnauth then banActions else [.logged "Deprecated len 0 msg"])
    ∧ C2SMessage.try_from [] = .error (.BadLength "C2SMessage" 1 false 0) :=
  empty_frame_skipped srv0 locUnauth

/-- C8 counterexample: a Token frame whose token bytes are not valid
UTF-8 (and are in no registry) makes the Token arm panic on the
String::from_utf8 unwrap instead of answering Close 4000. -/
theorem token_invalid_utf8_panics :
    handleFrame srv0 locUnauth [0, 255] = .panicked
    ∧ srv0.user_manager.get [255] = none
    ∧ StepResult.panicked ≠ .cont locUnauth srv0 [.sendClose 4000 "Re-auth"] := by
  decide

/-- C8 amended: for every Token frame whose token bytes are valid UTF-8
and miss the authenticated registry, the loop answers a WebSocket Close
with code 4000 and reason Re-auth, keeps looping, and changes neither
the session state nor the SessionMap. -/
theorem token_miss_reauth (srv : AppState) (loc : SessionLocal) (tok : SToken)
    (hb : bannedCheck srv loc = false)
    (hu : isValidUtf8 tok = true)
    (hg : srv.user_manager.get tok = none) :
    handleFrame srv loc (0 :: tok) = .cont loc srv [.sendClose 4000 "Re-auth"] := by
  simp [handleFrame, hb, C2SMessage.try_from, hu, hg]

/-- Witness of the amended C8 theorem at the bogus token of the spec
scenario. -/
theorem token_miss_reauth_witness :
    bannedCheck srv0 locUnauth = false
    ∧ isValidUtf8 bogusToken = true
    ∧ srv0.user_manager.get bogusToken = none
    ∧ handleFrame srv0 locUnauth (0 :: bogusToken) =
        .cont locUnauth srv0 [.sendClose 4000 "Re-auth"] :=
  ⟨by decide, by decide, by decide,
    token_miss_reauth srv0 locUnauth bogusToken (by decide) (by decide) (by decide)⟩

/-- C9: a PUT or DELETE of the avatar with an unknown token falls
through both handlers: HTTP 200 with body ok, no filesystem effect, no
registry or topic change, and in particular no 401. -/
theorem unknown_token_avatar_noop (st : AppState) (dflt : Bool) (tok : SToken)
    (body : List Nat) (h : st.user_manager.get tok = none) :
    upload_avatar st dflt tok body = ({ status := 200, body := "ok" }, [])
    ∧ delete_avatar st tok = ({ status := 200, body := "ok" }, [], st) := by
  constructor <;> simp [upload_avatar, delete_avatar, h]

/-- Witness of the unknown-token avatar theorem at a concrete state. -/
theorem unknown_token_avatar_noop_witness :
    srv0.user_manager.get bogusToken = none
    ∧ (upload_avatar srv0 true bogusToken [1, 2] = ({ status := 200, body := "ok" }, [])
       ∧ delete_avatar srv0 bogusToken = ({ status := 200, body := "ok" }, [], srv0)) :=
  ⟨by decide, unknown_token_avatar_noop srv0 true bogusToken [1, 2] (by decide)⟩

/-- C3: send_event appends exactly one Event frame, whose bytes are the
opcode 2 followed by the 16 identifier bytes (17 bytes in all), to the
topic of the user and to the SessionMap queue of the user when those
entries exist, and changes nothing else, so every subscriber relaying
from that topic observes the one event. -/
theorem send_event_delivery (st : AppState) (id : Uuid) (log q : List (List Nat))
    (hlen : id.length = 16)
    (hb : findMap id st.broadcasts = some log)
    (hs : findMap id st.session = some q) :
    (S2CMessage.Event id).to_array = 2 :: id
    ∧ ((S2CMessage.Event id).to_array).length = 17
    ∧ findMap id (send_event st id).broadcasts = some (log ++ [2 :: id])
    ∧ findMap id (send_event st id).session = some (q ++ [2 :: id])
    ∧ (∀ k, k ≠ id → findMap k (send_event st id).broadcasts = findMap k st.broadcasts)
    ∧ (∀ k, k ≠ id → findMap k (send_event st id).session = findMap k st.session)
    ∧ (send_event st id).user_manager = st.user_manager := by
  refine ⟨rfl, ?_, ?_, ?_, ?_, ?_, rfl⟩
  · simp [S2CMessage.to_array, hlen]
  · simp [send_event, hb, hs, S2CMessage.to_array, findMap_setMap_self]
  · simp [send_event, hb, hs, S2CMessage.to_array, findMap_setMap_self]
  · intro k hk
    simp [send_event, hb, hs, findMap_setMap_ne id k _ _ hk]
  · intro k hk
    simp [send_event, hb, hs, findMap_setMap_ne id k _ _ hk]

/-- Witness of the event-delivery theorem at a state holding one topic
and one session queue for uuidA. -/
theorem send_event_delivery_witness :
    uuidA.length = 16
    ∧ findMap uuidA srvA.broadcasts = some []
    ∧ findMap uuidA (send_event srvA uuidA).broadcasts = some [2 :: uuidA]
    ∧ findMap uuidA (send_event srvA uuidA).session = some [2 :: uuidA] := by
  have h := send_event_delivery srvA uuidA [] [] (by decide) (by decide) (by decide)
  refine ⟨by decide, by decide, ?_, ?_⟩
  · simpa using h.2.2.1
  · simpa using h.2.2.2.1

/-- C1: the fan-out transform of a C2S ping frame starting with opcode 1
places the 16 publisher identifier bytes between the opcode and the
rest, growing the frame by exactly 16 bytes, and the authenticated Ping
arm of the session loop publishes exactly that transformed frame on the
retained topic, touching no other topic, no session state and no other
part of the shared state. -/
theorem ping_fanout (srv : AppState) (loc : SessionLocal) (u : WSUser) (k : Uuid)
    (rest : List Nat)
    (hb : bannedCheck srv loc = false)
    (ho : loc.owner = some u)
    (hk : loc.bctx = some k)
    (hlen : 5 ≤ rest.length)
    (hu : u.uuid.length = 16) :
    into_s2c_ping (1 :: rest) u.uuid = 1 :: (u.uuid ++ rest)
    ∧ (1 :: (u.uuid ++ rest)).length = (1 :: rest).length + 16
    ∧ handleFrame srv loc (1 :: rest) =
        .cont loc
          { srv with broadcasts := publish k (1 :: (u.uuid ++ rest)) srv.broadcasts } []
    ∧ findMap k (publish k (1 :: (u.uuid ++ rest)) srv.broadcasts) =
        some (((findMap k srv.broadcasts).getD []) ++ [1 :: (u.uuid ++ rest)])
    ∧ (∀ k2, k2 ≠ k →
        findMap k2 (publish k (1 :: (u.uuid ++ rest)) srv.broadcasts) =
          findMap k2 srv.broadcasts) := by
  refine ⟨rfl, ?_, ?_, findMap_publish_self k _ _, fun k2 hk2 => findMap_publish_ne k k2 _ _ hk2⟩
  · simp [hu]
    omega
  · simp [handleFrame, hb, C2SMessage.try_from, hlen, ho, hk, into_s2c_ping]

/-- Witness of the fan-out theorem at the literal spec scenario frame
with publisher uuidA. -/
theorem ping_fanout_witness :
    into_s2c_ping (1 :: [0, 0, 0, 5, 1, 222, 173]) uuidA =
      1 :: (uuidA ++ [0, 0, 0, 5, 1, 222, 173])
    ∧ (1 :: (uuidA ++ [0, 0, 0, 5, 1, 222, 173])).length =
        (1 :: [0, 0, 0, 5, 1, 222, 173]).length + 16
    ∧ handleFrame srv0 locAuth (1 :: [0, 0, 0, 5, 1, 222, 173]) =
        .cont locAuth
          { srv0 with
            broadcasts :=
              publish uuidA (1 :: (uuidA ++ [0, 0, 0, 5, 1, 222, 173])) srv0.broadcasts } [] := by
  have h := ping_fanout srv0 locAuth { username := "alice", uuid := uuidA } uuidA
    [0, 0, 0, 5, 1, 222, 173] (by decide) (by decide) (by decide) (by decide) (by decide)
  exact ⟨h.1, h.2.1, h.2.2.1⟩

/-- C2: the claim says Stage 2 with an unknown id returns HTTP 400 and
leaves the registries unchanged without panicking. The source unwraps
pending_remove, which fails on an absent id, so the handler panics
instead (its own TODO comment records the missing error check). -/
theorem verify_unknown_id_panics (m : UManager)
    (oracle : Except Unit (Option (Uuid × String))) (sid : SToken)
    (h : findMap sid m.pending = none) :
    verify m oracle sid = .panicked := by
  simp [verify, UManager.pending_remove, h]

/-- Witness of the unknown-id panic at an empty pending table. -/
theorem verify_unknown_id_panics_witness :
    findMap bogusToken emptyManager.pending = none
    ∧ verify emptyManager (.ok none) bogusToken = .panicked :=
  ⟨by decide, verify_unknown_id_panics emptyManager (.ok none) bogusToken (by decide)⟩

/-- C7: when the pending entry exists, the oracle verifies the user and
the user is not banned, a first insert conflict is handled by removing
the uuid and retrying exactly once. If the conflict came from an
existing record of the same uuid and the new token is fresh, the retry
succeeds: HTTP 200 with the server_id as body, the new record is
reachable from both views, and no token other than the new server_id
reaches a record of that user any more. If the new token is already
bound to a different uuid the retry fails again and the handler answers
HTTP 400 with body second session detected. -/
theorem verify_takeover (m : UManager) (prov : String) (uuid : Uuid) (sid : SToken)
    (nickname : String)
    (hp : findMap sid m.pending = some nickname)
    (hban : uuid ∉ m.banned) :
    (∀ oldInfo, findMap uuid m.byUuid = some oldInfo →
      findMap sid m.byToken = none →
      ∃ m3 info,
        verify m (.ok (some (uuid, prov))) sid = .response 200 (.token sid) m3
        ∧ m3.get sid = some info
        ∧ m3.get_by_uuid uuid = some info
        ∧ info.token = some sid
        ∧ info.nickname = nickname
        ∧ info.uuid = uuid
        ∧ (∀ t i2, m3.get t = some i2 → i2.uuid = uuid → t = sid))
    ∧ (∀ tinfo, findMap sid m.byToken = some tinfo → tinfo.uuid ≠ uuid →
        ∃ m2,
          verify m (.ok (some (uuid, prov))) sid =
            .response 400 (.text "second session detected") m2) := by
  have hban2 : UManager.is_banned { m with pending := removeMap sid m.pending } uuid = false := by
    simp [UManager.is_banned, hban]
  constructor
  · intro oldInfo hOld hTok
    have hIns1 :
        UManager.insert { m with pending := removeMap sid m.pending } uuid sid
          { nickname := nickname, uuid := uuid, token := some sid } = none := by
      simp [UManager.insert, hOld, hTok]
    have hTok2 :
        findMap sid (UManager.remove { m with pending := removeMap sid m.pending } uuid).byToken
          = none := by
      simp only [UManager.remove]
      exact findMap_filter_none _ sid m.byToken hTok
    have hUuid2 :
        findMap uuid (UManager.remove { m with pending := removeMap sid m.pending } uuid).byUuid
          = none := by
      simp only [UManager.remove]
      exact findMap_removeMap_self uuid m.byUuid
    refine ⟨takeoverRegistry m uuid sid { nickname := nickname, uuid := uuid, token := some sid },
      { nickname := nickname, uuid := uuid, token := some sid }, ?_, ?_, ?_, rfl, rfl, rfl, ?_⟩
    · simp only [verify, UManager.pending_remove, hp]
      simp only [hban2, Bool.false_eq_true, if_false]
      rw [hIns1]
      simp [takeoverRegistry, UManager.insert, hTok2, hUuid2]
    · simp [takeoverRegistry, UManager.get, findMap]
    · simp [takeoverRegistry, UManager.get_by_uuid, findMap]
    · intro t i2 hGet hUuid
      by_cases hts : t = sid
      · exact hts
      · exfalso
        have hne : sid ≠ t := fun hc => hts (hc ▸ rfl)
        simp only [takeoverRegistry, UManager.get, UManager.remove, findMap, if_neg hne] at hGet
        have hprop := findMap_filter_prop _ t i2 _ hGet
        rw [hUuid] at hprop
        simp at hprop
  · intro tinfo hTok hNe
    have hIns1 :
        UManager.insert { m with pending := removeMap sid m.pending } uuid sid
          { nickname := nickname, uuid := uuid, token := some sid } = none := by
      simp [UManager.insert, hTok]
    have hTok2 :
        findMap sid (UManager.remove { m with pending := removeMap sid m.pending } uuid).byToken
          = some tinfo := by
      simp only [UManager.remove]
      exact findMap_filter_first _ sid tinfo m.byToken hTok (by simp [hNe])
    refine ⟨UManager.remove { m with pending := removeMap sid m.pending } uuid, ?_⟩
    simp only [verify, UManager.pending_remove, hp]
    simp only [hban2, Bool.false_eq_true, if_false]
    rw [hIns1]
    simp [UManager.insert, hTok2]

/-- Witness of the takeover theorem: a concrete registry with one
existing session of uuidA and a fresh pending server_id. -/
theorem verify_takeover_witness :
    findMap sidNew mgrTakeover.pending = some "alice"
    ∧ uuidA ∉ mgrTakeover.banned
    ∧ findMap uuidA mgrTakeover.byUuid = some oldInfoA
    ∧ findMap sidNew mgrTakeover.byToken = none
    ∧ ∃ m3 info,
        verify mgrTakeover (.ok (some (uuidA, "mojang"))) sidNew =
          .response 200 (.token sidNew) m3
        ∧ m3.get sidNew = some info
        ∧ m3.get_by_uuid uuidA = some info
        ∧ info.token = some sidNew
        ∧ info.nickname = "alice"
        ∧ info.uuid = uuidA
        ∧ (∀ t i2, m3.get t = some i2 → i2.uuid = uuidA → t = sidNew) :=
  ⟨by decide, by decide, by decide, by decide,
    (verify_takeover mgrTakeover "mojang" uuidA sidNew "alice" (by decide) (by decide)).1
      oldInfoA (by decide) (by decide)⟩

theorem u32_roundtrip (i : Nat) (h : i < 2 ^ 32) :
    u32_from_be_bytes (u32_to_be_bytes i) = i := by
  simp only [u32_to_be_bytes, u32_from_be_bytes]
  omega

theorem s2c_ping_roundtrip (u : Uuid) (i : Nat) (s : Bool) (d : List Nat)
    (hu : List.length u = 16) (hi : i < 2 ^ 32) :
    S2CMessage.try_from ((S2CMessage.Ping u i s d).to_array) = .ok (.Ping u i s d) := by
  have hbe : (u32_to_be_bytes i).length = 4 := by simp [u32_to_be_bytes]
  have hub : (u ++ u32_to_be_bytes i).length = 20 := by simp [hu, hbe]
  have hub1 : ((u ++ u32_to_be_bytes i) ++ [if s then (1 : Nat) else 0]).length = 21 := by
    simp [hu, hbe]
  have e1 : u ++ u32_to_be_bytes i ++ (if s then (1 : Nat) else 0) :: d =
      u ++ (u32_to_be_bytes i ++ (if s then (1 : Nat) else 0) :: d) := by
    rw [List.append_assoc]
  have e3 : u ++ u32_to_be_bytes i ++ (if s then (1 : Nat) else 0) :: d =
      ((u ++ u32_to_be_bytes i) ++ [if s then (1 : Nat) else 0]) ++ d := by
    simp
  have hlen : 22 ≤ (u ++ u32_to_be_bytes i ++ (if s then (1 : Nat) else 0) :: d).length + 1 := by
    simp [hu, hbe]
    omega
  have h1 : (u ++ u32_to_be_bytes i ++ (if s then (1 : Nat) else 0) :: d).take 16 = u := by
    rw [e1]; exact List.take_left' hu
  have h2 : ((u ++ u32_to_be_bytes i ++ (if s then (1 : Nat) else 0) :: d).drop 16).take 4 =
      u32_to_be_bytes i := by
    rw [e1, List.drop_left' hu]; exact List.take_left' hbe
  have h3 : ((u ++ u32_to_be_bytes i ++ (if s then (1 : Nat) else 0) :: d).drop 20).headD 0 =
      (if s then (1 : Nat) else 0) := by
    rw [List.drop_left' hub]; rfl
  have h4 : (u ++ u32_to_be_bytes i ++ (if s then (1 : Nat) else 0) :: d).drop 21 = d := by
    rw [e3]; exact List.drop_left' hub1
  have h5 : ((if s then (1 : Nat) else 0) != 0) = s := by cases s <;> rfl
  simp only [S2CMessage.to_array, S2CMessage.try_from, hlen, if_pos, h1, h2, h3, h4, h5,
    u32_roundtrip i hi]

/-- C5 counterexample: decoding the encoding of a Toast, a Chat or a
Notice runs into the todo arms of the decoder and panics, so those
variants do not round-trip and decoding is not total. -/
theorem s2c_decode_todo_panics :
    S2CMessage.try_from ((S2CMessage.Notice 7).to_array) = .panicked
    ∧ S2CMessage.try_from ((S2CMessage.Chat [104, 105]).to_array) = .panicked
    ∧ S2CMessage.try_from ((S2CMessage.Toast 2 [104] none).to_array) = .panicked
    ∧ DecodeResult.panicked ≠ .ok (.Notice 7) := by
  decide

/-- C5 amended: Auth, Ping and Event frames round-trip encode then
decode back to the original variant; the decoder is total and produces
the documented BadLength and BadEnum errors on every input whose opcode
byte is not 3, 4 or 5, while opcodes 3, 4 and 5 (Toast, Chat, Notice)
are unimplemented todo arms that panic. -/
theorem s2c_codec_validation :
    (S2CMessage.try_from (S2CMessage.Auth.to_array) = .ok .Auth)
    ∧ (∀ u i s d, List.length u = 16 → i < 2 ^ 32 →
        S2CMessage.try_from ((S2CMessage.Ping u i s d).to_array) = .ok (.Ping u i s d))
    ∧ (∀ u, List.length u = 16 →
        S2CMessage.try_from ((S2CMessage.Event u).to_array) = .ok (.Event u))
    ∧ (S2CMessage.try_from [] = .err (.BadLength "S2CMessage" 1 false 0))
    ∧ (∀ b rest, 6 ≤ b →
        S2CMessage.try_from (b :: rest) = .err (.BadEnum "S2CMessage.type" 0 5 b))
    ∧ (∀ rest : List Nat, rest.length + 1 < 22 →
        S2CMessage.try_from (1 :: rest) =
          .err (.BadLength "S2CMessage::Ping" 22 false (rest.length + 1)))
    ∧ (∀ rest : List Nat, rest.length + 1 ≠ 17 →
        S2CMessage.try_from (2 :: rest) =
          .err (.BadLength "S2CMessage::Event" 17 true (rest.length + 1)))
    ∧ (∀ b rest, b ≠ 3 → b ≠ 4 → b ≠ 5 →
        S2CMessage.try_from (b :: rest) ≠ .panicked) := by
  refine ⟨by decide, s2c_ping_roundtrip, ?_, by decide, ?_, ?_, ?_, ?_⟩
  · intro u hu
    simp [S2CMessage.to_array, S2CMessage.try_from, hu]
  · intro b rest h
    obtain ⟨a, rfl⟩ : ∃ a, b = a + 6 := ⟨b - 6, by omega⟩
    rfl
  · intro rest h
    have hn : ¬(22 ≤ rest.length + 1) := by omega
    simp [S2CMessage.try_from, hn]
  · intro rest h
    simp [S2CMessage.try_from, h]
  · intro b rest h3 h4 h5
    by_cases h6 : 6 ≤ b
    · obtain ⟨a, rfl⟩ : ∃ a, b = a + 6 := ⟨b - 6, by omega⟩
      simp [S2CMessage.try_from]
    · have hlt : b < 6 := by omega
      interval_cases b
      · simp only [S2CMessage.try_from]
        split <;> simp
      · simp only [S2CMessage.try_from]
        split <;> simp
      · simp only [S2CMessage.try_from]
        split <;> simp
      · exact absurd rfl h3
      · exact absurd rfl h4
      · exact absurd rfl h5

/-- Witness of the codec theorem: a concrete Ping, Event, short Ping,
wrong-size Event, unknown opcode and a no-panic instance. -/
theorem s2c_codec_validation_witness :
    (List.length uuidA = 16 ∧ (7 : Nat) < 2 ^ 32)
    ∧ S2CMessage.try_from ((S2CMessage.Ping uuidA 7 true [1, 2]).to_array) =
        .ok (.Ping uuidA 7 true [1, 2])
    ∧ S2CMessage.try_from ((S2CMessage.Event uuidA).to_array) = .ok (.Event uuidA)
    ∧ S2CMessage.try_from [9] = .err (.BadEnum "S2CMessage.type" 0 5 9)
    ∧ S2CMessage.try_from [1, 0] = .err (.BadLength "S2CMessage::Ping" 22 false 2)
    ∧ S2CMessage.try_from [2, 0] = .err (.BadLength "S2CMessage::Event" 17 true 2)
    ∧ S2CMessage.try_from [0] ≠ .panicked := by
  have h := s2c_codec_validation
  refine ⟨⟨by decide, by decide⟩, ?_, ?_, ?_, ?_, ?_, ?_⟩
  · exact h.2.1 uuidA 7 true [1, 2] (by decide) (by decide)
  · exact h.2.2.1 uuidA (by decide)
  · exact h.2.2.2.2.1 9 [] (by decide)
  · exact h.2.2.2.2.2.1 [0] (by decide)
  · exact h.2.2.2.2.2.2.1 [0] (by decide)
  · exact h.2.2.2.2.2.2.2 0 [] (by decide) (by decide) (by decide)

end Sculptor
